import Mathlib

/-!
Shallow embedding of the browser-side crypto dashboard
(static/js/main.js, charts.js, portfolio.js, frontend/js/main.js)
together with theorems about its portfolio store, grid rendering,
modal chart axis, prediction-field rendering, chart lifecycle and
theme handling.

Numbers are modelled as exact rationals (ℚ).  A JavaScript value that
may be `undefined` is modelled as an `Option`; JavaScript truthiness of
a numeric option (`undefined` and `0` are falsy) is made explicit by
`truthy`.  Browser `localStorage` writes are modelled by returning the
new stored value; a function that performs no write returns `none`.
-/

/-- One persisted portfolio entry: the objects `{ symbol, name, qty }`
stored as JSON under the localStorage key "portfolio". -/
structure Entry where
  symbol : String
  name : String
  qty : ℚ
deriving Repr, DecidableEq

/-- JavaScript truthiness of an optional number: `undefined` and `0`
are falsy, every other number is truthy. -/
def truthy : Option ℚ → Bool
  | none => false
  | some p => decide (p ≠ 0)

/-- The merge step of `addToPortfolio`:
`const idx = data.findIndex((x) => x.symbol === symbol);`
`if (idx >= 0) data[idx].qty += finalQty; else data.push({symbol, name, qty: finalQty});`
The first entry whose symbol matches has its quantity incremented;
otherwise a fresh entry is appended at the end. -/
def mergeEntry (symbol name : String) (finalQty : ℚ) : List Entry → List Entry
  | [] => [⟨symbol, name, finalQty⟩]
  | e :: rest =>
    if e.symbol = symbol then { e with qty := e.qty + finalQty } :: rest
    else e :: mergeEntry symbol name finalQty rest

/-- `addToPortfolio(symbol, name, currentPrice)` from static/js/main.js.
`modeQty` is the state of the `modeQty` radio button, `qty` and `budget`
the parsed values of the two inputs.  Returns `some newList` when the
function writes the merged list back to localStorage, `none` when the
input is rejected (`toast(...)` and early return, no write). -/
def addToPortfolio (symbol name : String) (currentPrice : Option ℚ)
    (modeQty : Bool) (qty budget : ℚ) (data : List Entry) : Option (List Entry) :=
  if modeQty then
    if qty = 0 ∨ qty ≤ 0 then none
    else some (mergeEntry symbol name qty data)
  else
    if budget = 0 ∨ budget ≤ 0 ∨ truthy currentPrice = false then none
    else some (mergeEntry symbol name (budget / currentPrice.getD 0) data)

/-- The portfolio list persisted under the key "portfolio" after a call
to `addToPortfolio`: the merged list on success, the previous list
untouched on rejection. -/
def persistedPortfolio (symbol name : String) (currentPrice : Option ℚ)
    (modeQty : Bool) (qty budget : ℚ) (data : List Entry) : List Entry :=
  (addToPortfolio symbol name currentPrice modeQty qty budget data).getD data

/-- Number of entries of the list whose symbol is `s`. -/
def symbolCount (s : String) (data : List Entry) : Nat :=
  (data.filter (fun e => e.symbol == s)).length

/-- Quantity held by the first entry for symbol `s`, if any
(the entry `findIndex` would locate). -/
def portfolioQty (s : String) (data : List Entry) : Option ℚ :=
  (data.find? (fun e => e.symbol == s)).map Entry.qty

/-- The currency prefix used by `formatINR`. -/
def INR_SYMBOL : String := "₹"

/-- Rounding performed by `Intl.NumberFormat("en-IN", { maximumFractionDigits: 2 })`:
the value scaled to hundredths (paise), rounded half away from zero. -/
def intlRoundPaise (n : ℚ) : ℤ :=
  if n < 0 then -(Rat.floor ((-n) * 100 + 1 / 2)) else Rat.floor (n * 100 + 1 / 2)

/-- Groups a reversed digit list into pairs separated by commas:
the Indian grouping applied to the digits above the last three. -/
def groupPairsRev : List Char → List Char
  | a :: b :: c :: rest => a :: b :: ',' :: groupPairsRev (c :: rest)
  | s => s

/-- Indian digit grouping (en-IN locale): the last three digits form one
group, every group above it has two digits. -/
def groupIndian (ds : List Char) : List Char :=
  if ds.length ≤ 3 then ds
  else (groupPairsRev ((ds.take (ds.length - 3)).reverse)).reverse
        ++ ',' :: ds.drop (ds.length - 3)

/-- Rendering of a rounded paise amount: sign, Indian-grouped integer
part, and the fraction part with trailing zeros dropped. -/
def formatPaise (cents : ℤ) : String :=
  let sign := if cents < 0 then "-" else ""
  let i := cents.natAbs / 100
  let f := cents.natAbs % 100
  let fracStr :=
    if f = 0 then ""
    else if f % 10 = 0 then "." ++ toString (f / 10)
    else if f < 10 then ".0" ++ toString f
    else "." ++ toString f
  INR_SYMBOL ++ sign ++ String.mk (groupIndian (toString i).toList) ++ fracStr

/-- `formatINR(n)` from static/js/main.js: the rupee sign followed by the
en-IN formatting of `n` with at most two fraction digits (trailing
fraction zeros dropped, Indian digit grouping). -/
def formatINR (n : ℚ) : String :=
  formatPaise (intlRoundPaise n)

/-- A catalog coin: the static entries of the `COINS` array. -/
structure Coin where
  id : String
  symbol : String
  name : String
  img : String
deriving Repr, DecidableEq

/-- The hard-coded catalog `COINS` of static/js/main.js. -/
def COINS : List Coin := [
  ⟨"bitcoin", "BTC", "Bitcoin", "/static/images/btc.png"⟩,
  ⟨"ethereum", "ETH", "Ethereum", "/static/images/eth.png"⟩,
  ⟨"ripple", "XRP", "XRP", "/static/images/xrp.png"⟩,
  ⟨"tether", "USDT", "Tether", "/static/images/usdt.png"⟩,
  ⟨"binancecoin", "BNB", "BNB", "/static/images/bnb.png"⟩,
  ⟨"solana", "SOL", "Solana", "/static/images/sol.png"⟩,
  ⟨"usd-coin", "USDC", "USD Coin", "/static/images/usdc.png"⟩,
  ⟨"dogecoin", "DOGE", "Dogecoin", "/static/images/doge.png"⟩,
  ⟨"tron", "TRX", "TRON", "/static/images/trx.png"⟩,
  ⟨"cardano", "ADA", "Cardano", "/static/images/ada.png"⟩,
  ⟨"chainlink", "LINK", "Chainlink", "/static/images/link.png"⟩,
  ⟨"hyperliquid", "HYPE", "Hyperliquid", "/static/images/hype.png"⟩,
  ⟨"stellar", "XLM", "Stellar", "/static/images/xlm.png"⟩,
  ⟨"sui", "SUI", "Sui", "/static/images/sui.png"⟩,
  ⟨"bitcoin-cash", "BCH", "Bitcoin Cash", "/static/images/bch.png"⟩,
  ⟨"hedera-hashgraph", "HBAR", "Hedera", "/static/images/hbar.png"⟩,
  ⟨"ethena-usde", "USDe", "Ethena USDe", "/static/images/usde.png"⟩,
  ⟨"avalanche-2", "AVAX", "Avalanche", "/static/images/avax.png"⟩,
  ⟨"litecoin", "LTC", "Litecoin", "/static/images/ltc.png"⟩,
  ⟨"the-open-network", "TON", "Toncoin", "/static/images/ton.png"⟩]

/-- The semantic content of one rendered coin card. -/
structure Card where
  symbol : String
  id : String
  name : String
  priceText : String
deriving Repr, DecidableEq

/-- `coinCardTemplate(c, livePrice)`: the card for coin `c`; its price
cell shows `formatINR(livePrice)` when `livePrice` is truthy and the
placeholder dash otherwise. -/
def coinCardTemplate (c : Coin) (livePrice : Option ℚ) : Card :=
  { symbol := c.symbol, id := c.id, name := c.name,
    priceText := if truthy livePrice then formatINR (livePrice.getD 0) else "—" }

/-- `renderGrid` specialised to an arbitrary catalog: `fetched` is
`some prices` when `fetchLivePricesInINR` resolved (where `prices id`
models `prices?.[id]?.inr`) and `none` when it rejected; in the catch
branch every card is built with a `null` price. -/
def renderGridOn (coins : List Coin) (fetched : Option (String → Option ℚ)) :
    List Card :=
  match fetched with
  | some prices => coins.map (fun c => coinCardTemplate c (prices c.id))
  | none => coins.map (fun c => coinCardTemplate c none)

/-- `renderGrid()` from static/js/main.js, acting on the `COINS` catalog. -/
def renderGrid (fetched : Option (String → Option ℚ)) : List Card :=
  renderGridOn COINS fetched

/-- The prediction response consumed by `openCoinModal`; a missing field
of the JSON object is `none` (and `{}` is all-`none` when `pres.ok` is
false). -/
structure PredsResponse where
  current_price : Option ℚ
  pred_3m : Option ℚ
  pred_6m : Option ℚ
  pred_1y : Option ℚ
deriving Repr, DecidableEq

/-- The text `openCoinModal` assigns to one prediction field:
`value ? formatINR(value) : "—"`. -/
def renderPredField (v : Option ℚ) : String :=
  if truthy v then formatINR (v.getD 0) else "—"

/-- The four texts assigned to `modalCurrent`, `pred3m`, `pred6m`,
`pred1y` in `openCoinModal`. -/
def modalPredTexts (preds : PredsResponse) : String × String × String × String :=
  (renderPredField preds.current_price, renderPredField preds.pred_3m,
   renderPredField preds.pred_6m, renderPredField preds.pred_1y)

/-- The 365 future daily labels generated by `openCoinModal`'s loop
`for (let i = 1; i <= 365; i++)`: day `lastDate + i` for `i = 1..365`.
Dates are modelled as day numbers. -/
def futureLabels (lastDate : Nat) : List Nat :=
  (List.range 365).map (fun i => lastDate + (i + 1))

/-- `labelsFull` of `openCoinModal`: the historical date labels followed
by the 365 generated future labels, starting from the last historical
date (or today when the history is empty). -/
def labelsFull (labelsHist : List Nat) (today : Nat) : List Nat :=
  labelsHist ++ futureLabels (labelsHist.getLast?.getD today)

/-- State of the modal chart canvas: the ids of the Chart instances
currently attached to it, the value of the module-level `chart`
variable, and a counter supplying fresh instance ids. -/
structure ChartDom where
  live : List Nat
  chart : Option Nat
  next : Nat
deriving Repr, DecidableEq

/-- The chart section of `openCoinModal` in static/js/main.js:
`if (chart) chart.destroy(); chart = new Chart(ctx, ...)`. -/
def openCoinModalChart (st : ChartDom) : ChartDom :=
  let st1 :=
    match st.chart with
    | some c => { st with live := st.live.erase c }
    | none => st
  { live := st1.live ++ [st1.next], chart := some st1.next, next := st1.next + 1 }

/-- `renderChart(history, predictions)` from the legacy charts.js:
`new Chart(ctx, ...)` with no destroy of any earlier instance and no
reference kept. -/
def renderChart (st : ChartDom) : ChartDom :=
  { st with live := st.live ++ [st.next], next := st.next + 1 }

/-- The invariant that the instances attached to the canvas are exactly
the one referenced by the `chart` variable. -/
def chartInv (st : ChartDom) : Prop :=
  st.live = st.chart.elim [] (fun c => [c])

/-- Theme-related browser state: the localStorage "theme" entry, the
`data-theme` attribute on the document element, the legacy
`dark-mode` class on `document.body`, and the toggle checkbox. -/
structure ThemeState where
  storageTheme : Option String
  dataTheme : Option String
  bodyDark : Bool
  toggleChecked : Bool
deriving Repr, DecidableEq

/-- `setTheme(mode)` from static/js/main.js: sets the `data-theme`
attribute and writes the mode to localStorage under "theme". -/
def setTheme (mode : String) (st : ThemeState) : ThemeState :=
  { st with dataTheme := some mode, storageTheme := some mode }

/-- `initTheme()` from static/js/main.js, run on DOMContentLoaded:
re-applies the saved theme (default "light") and syncs the toggle. -/
def initTheme (st : ThemeState) : ThemeState :=
  let saved := st.storageTheme.getD "light"
  let st1 := setTheme saved st
  { st1 with toggleChecked := saved == "dark" }

/-- The change handler of the `themeToggle` checkbox in
static/js/main.js: `setTheme(themeToggle.checked ? "dark" : "light")`. -/
def themeToggleChange (checked : Bool) (st : ThemeState) : ThemeState :=
  setTheme (if checked then "dark" else "light") st

/-- The click handler of the legacy theme toggle in
frontend/js/main.js: `document.body.classList.toggle("dark-mode")`. -/
def legacyThemeToggleClick (st : ThemeState) : ThemeState :=
  { st with bodyDark := !st.bodyDark }


lemma mergeEntry_count_self (s n : String) (q : ℚ) (data : List Entry) :
    symbolCount s (mergeEntry s n q data) = max (symbolCount s data) 1 := by
  induction data with
  | nil => simp [mergeEntry, symbolCount]
  | cons e rest ih =>
    simp only [symbolCount] at ih ⊢
    by_cases h : e.symbol = s
    · have hb : (e.symbol == s) = true := by simp [h]
      simp [mergeEntry, if_pos h, List.filter_cons, hb]
    · have hb : (e.symbol == s) = false := by simp [h]
      simp only [mergeEntry, if_neg h, List.filter_cons, hb]
      exact ih

lemma mergeEntry_count_ne (s n t : String) (q : ℚ) (data : List Entry)
    (hts : t ≠ s) :
    symbolCount t (mergeEntry s n q data) = symbolCount t data := by
  induction data with
  | nil =>
    have hb : (s == t) = false := by simp [Ne.symm hts]
    simp [mergeEntry, symbolCount, List.filter_cons, hb]
  | cons e rest ih =>
    simp only [symbolCount] at ih ⊢
    by_cases h : e.symbol = s
    · have hb : (e.symbol == t) = false := by simp [h, Ne.symm hts]
      simp [mergeEntry, if_pos h, List.filter_cons, hb]
    · simp only [mergeEntry, if_neg h, List.filter_cons]
      by_cases h2 : e.symbol = t
      · have hb2 : (e.symbol == t) = true := by simp [h2]
        simp [hb2, ih]
      · have hb2 : (e.symbol == t) = false := by simp [h2]
        simp [hb2, ih]

lemma mergeEntry_qty_self (s n : String) (q : ℚ) (data : List Entry) :
    portfolioQty s (mergeEntry s n q data) =
      some ((portfolioQty s data).getD 0 + q) := by
  induction data with
  | nil => simp [mergeEntry, portfolioQty]
  | cons e rest ih =>
    by_cases h : e.symbol = s
    · have hb : (e.symbol == s) = true := by simp [h]
      simp [mergeEntry, if_pos h, portfolioQty, List.find?_cons, hb]
    · have hb : (e.symbol == s) = false := by simp [h]
      simp only [mergeEntry, if_neg h, portfolioQty, List.find?_cons, hb]
      exact ih

lemma mergeEntry_filter_ne (s n : String) (q : ℚ) (data : List Entry) :
    (mergeEntry s n q data).filter (fun e => e.symbol != s) =
      data.filter (fun e => e.symbol != s) := by
  induction data with
  | nil => simp [mergeEntry]
  | cons e rest ih =>
    by_cases h : e.symbol = s
    · have hb : (e.symbol != s) = false := by simp [h]
      simp [mergeEntry, if_pos h, List.filter_cons, hb]
    · have hb : (e.symbol != s) = true := by simp [h]
      simp only [mergeEntry, if_neg h, List.filter_cons, hb]
      simp [ih]

lemma symbolCount_zero_iff (s : String) (data : List Entry) :
    symbolCount s data = 0 ↔ portfolioQty s data = none := by
  induction data with
  | nil => simp [symbolCount, portfolioQty]
  | cons e rest ih =>
    by_cases h : e.symbol = s
    · have hb : (e.symbol == s) = true := by simp [h]
      simp [symbolCount, portfolioQty, List.filter_cons, List.find?_cons, hb]
    · have hb : (e.symbol == s) = false := by simp [h]
      simp only [symbolCount, portfolioQty, List.filter_cons, List.find?_cons,
        hb, cond_false] at ih ⊢
      exact ih

lemma addToPortfolio_eq_some {s n : String} {p : Option ℚ} {mq : Bool}
    {q b : ℚ} {data out : List Entry}
    (h : addToPortfolio s n p mq q b data = some out) :
    ∃ fq, out = mergeEntry s n fq data := by
  unfold addToPortfolio at h
  by_cases hm : mq
  · rw [if_pos hm] at h
    split at h
    · exact absurd h (by simp)
    · exact ⟨q, (Option.some_injective _ h).symm⟩
  · rw [if_neg hm] at h
    split at h
    · exact absurd h (by simp)
    · exact ⟨b / p.getD 0, (Option.some_injective _ h).symm⟩

lemma ratFloor_eq_intFloor (q : ℚ) : Rat.floor q = Int.floor q :=
  (Rat.floor_def' q).trans Rat.floor_def.symm

lemma intlRoundPaise_eq_floor (n : ℚ) (h : ¬n < 0) :
    intlRoundPaise n = Int.floor (n * 100 + 1 / 2) := by
  unfold intlRoundPaise
  rw [if_neg h, ratFloor_eq_intFloor]

lemma intlRoundPaise_5200000 : intlRoundPaise 5200000 = 520000000 := by
  rw [intlRoundPaise_eq_floor _ (by norm_num), Int.floor_eq_iff]
  norm_num

lemma intlRoundPaise_5000000 : intlRoundPaise 5000000 = 500000000 := by
  rw [intlRoundPaise_eq_floor _ (by norm_num), Int.floor_eq_iff]
  norm_num

lemma intlRoundPaise_zero : intlRoundPaise 0 = 0 := by
  rw [intlRoundPaise_eq_floor _ (by norm_num), Int.floor_eq_iff]
  norm_num

lemma formatINR_5200000 : formatINR 5200000 = "₹52,00,000" := by
  unfold formatINR
  rw [intlRoundPaise_5200000]
  decide

lemma formatINR_5000000 : formatINR 5000000 = "₹50,00,000" := by
  unfold formatINR
  rw [intlRoundPaise_5000000]
  decide

lemma formatINR_zero : formatINR 0 = "₹0" := by
  unfold formatINR
  rw [intlRoundPaise_zero]
  decide

lemma addToPortfolio_qty_some {s n : String} {p : Option ℚ} {q b : ℚ}
    {data out : List Entry}
    (h : addToPortfolio s n p true q b data = some out) :
    out = mergeEntry s n q data := by
  unfold addToPortfolio at h
  rw [if_pos rfl] at h
  by_cases hc : q = 0 ∨ q ≤ 0
  · rw [if_pos hc] at h
    cases h
  · rw [if_neg hc] at h
    exact (Option.some_injective _ h).symm

lemma addToPortfolio_budget_some {s n : String} {p : Option ℚ} {q b : ℚ}
    {data out : List Entry}
    (h : addToPortfolio s n p false q b data = some out) :
    0 < b ∧ p.getD 0 ≠ 0 ∧ out = mergeEntry s n (b / p.getD 0) data := by
  unfold addToPortfolio at h
  rw [if_neg (by simp)] at h
  by_cases hc : b = 0 ∨ b ≤ 0 ∨ truthy p = false
  · rw [if_pos hc] at h
    cases h
  · rw [if_neg hc] at h
    push_neg at hc
    obtain ⟨-, hble, htr⟩ := hc
    have hP : p.getD 0 ≠ 0 := by
      cases p with
      | none => simp [truthy] at htr
      | some P =>
        simp only [truthy, decide_eq_false_iff_not, not_not] at htr
        simpa using fun hP0 => htr (by simp [hP0])
    exact ⟨hble, hP, (Option.some_injective _ h).symm⟩

lemma addToPortfolio_qty_pos_eq (s n : String) (p : Option ℚ) (q b : ℚ)
    (data : List Entry) (hq : 0 < q) :
    addToPortfolio s n p true q b data = some (mergeEntry s n q data) := by
  unfold addToPortfolio
  rw [if_pos rfl,
    if_neg (by push_neg; exact ⟨ne_of_gt hq, hq⟩)]

lemma addToPortfolio_budget_pos_eq (s n : String) (P b q : ℚ)
    (data : List Entry) (hb : 0 < b) (hP : P ≠ 0) :
    addToPortfolio s n (some P) false q b data =
      some (mergeEntry s n (b / P) data) := by
  unfold addToPortfolio
  rw [if_neg (by simp),
    if_neg (by push_neg; exact ⟨ne_of_gt hb, hb, by simp [truthy, hP]⟩)]
  simp

/-- C1: adding a symbol twice in quantity mode with valid quantities
`q1` and `q2`, starting from a list without that symbol, leaves exactly
one entry for it, holding quantity `q1 + q2`; and a successful add never
leaves more than `max (previous count) 1` entries for any symbol, so an
add of an already-present symbol increments its quantity instead of
appending a duplicate and the at-most-one-entry-per-symbol invariant of
the persisted list is preserved. -/
theorem addToPortfolio_one_entry_per_symbol :
    (∀ (s n1 n2 : String) (p1 p2 : Option ℚ) (q1 q2 b1 b2 : ℚ)
        (data d1 d2 : List Entry),
      0 < q1 → 0 < q2 → symbolCount s data = 0 →
      addToPortfolio s n1 p1 true q1 b1 data = some d1 →
      addToPortfolio s n2 p2 true q2 b2 d1 = some d2 →
      symbolCount s d2 = 1 ∧ portfolioQty s d2 = some (q1 + q2)) ∧
    (∀ (s n : String) (p : Option ℚ) (mq : Bool) (q b : ℚ)
        (data out : List Entry),
      addToPortfolio s n p mq q b data = some out →
      ∀ t, symbolCount t out ≤ max (symbolCount t data) 1) := by
  constructor
  · intro s n1 n2 p1 p2 q1 q2 b1 b2 data d1 d2 hq1 hq2 h0 h1 h2
    obtain rfl := addToPortfolio_qty_some h1
    obtain rfl := addToPortfolio_qty_some h2
    refine ⟨?_, ?_⟩
    · rw [mergeEntry_count_self, mergeEntry_count_self, h0]
      omega
    · rw [mergeEntry_qty_self, mergeEntry_qty_self,
        (symbolCount_zero_iff s data).mp h0]
      simp
  · intro s n p mq q b data out h t
    obtain ⟨fq, rfl⟩ := addToPortfolio_eq_some h
    by_cases ht : t = s
    · subst ht
      rw [mergeEntry_count_self]
    · rw [mergeEntry_count_ne s n t fq data ht]
      exact le_max_left _ _

/-- Witness for C1: two quantity-mode adds of BTC with quantities 2 and
3 starting from the empty list leave one BTC entry with quantity 2 + 3. -/
theorem addToPortfolio_one_entry_per_symbol_witness :
    symbolCount "BTC" [⟨"BTC", "Bitcoin", 2 + 3⟩] = 1 ∧
    portfolioQty "BTC" [⟨"BTC", "Bitcoin", 2 + 3⟩] = some (2 + 3) :=
  addToPortfolio_one_entry_per_symbol.1 "BTC" "Bitcoin" "Bitcoin" none none
    2 3 0 0 [] [⟨"BTC", "Bitcoin", 2⟩] [⟨"BTC", "Bitcoin", 2 + 3⟩]
    (by norm_num) (by norm_num) rfl
    ((addToPortfolio_qty_pos_eq "BTC" "Bitcoin" none 2 0 [] (by norm_num)).trans
      rfl)
    ((addToPortfolio_qty_pos_eq "BTC" "Bitcoin" none 3 0 [⟨"BTC", "Bitcoin", 2⟩]
      (by norm_num)).trans rfl)

/-- C2: every rejected input (quantity mode with qty ≤ 0, budget mode
with budget ≤ 0, or budget mode with a falsy current price) makes
`addToPortfolio` return before the storage write, and the persisted
portfolio list is exactly what it was before the call. -/
theorem addToPortfolio_rejected_no_write (s n : String) (p : Option ℚ)
    (mq : Bool) (q b : ℚ) (data : List Entry)
    (h : (mq = true ∧ q ≤ 0) ∨ (mq = false ∧ b ≤ 0) ∨
      (mq = false ∧ truthy p = false)) :
    addToPortfolio s n p mq q b data = none ∧
    persistedPortfolio s n p mq q b data = data := by
  have hnone : addToPortfolio s n p mq q b data = none := by
    unfold addToPortfolio
    rcases h with ⟨hm, hq⟩ | ⟨hm, hb⟩ | ⟨hm, hp⟩
    · subst hm
      rw [if_pos rfl, if_pos (Or.inr hq)]
    · subst hm
      rw [if_neg (by simp), if_pos (Or.inr (Or.inl hb))]
    · subst hm
      rw [if_neg (by simp), if_pos (Or.inr (Or.inr hp))]
  refine ⟨hnone, ?_⟩
  unfold persistedPortfolio
  rw [hnone]
  rfl

/-- Witness for C2: a quantity-mode add with qty 0 rejects and leaves
the empty persisted list empty. -/
theorem addToPortfolio_rejected_no_write_witness :
    addToPortfolio "BTC" "Bitcoin" (some 100) true 0 5 [] = none ∧
    persistedPortfolio "BTC" "Bitcoin" (some 100) true 0 5 [] = [] :=
  addToPortfolio_rejected_no_write "BTC" "Bitcoin" (some 100) true 0 5 []
    (Or.inl ⟨rfl, le_refl 0⟩)

/-- C3: a budget-mode add with budget B > 0 and nonzero current price P
stores quantity B / P (and a fresh symbol ends up holding exactly B / P);
a quantity-mode add is entirely independent of the current price, and a
fresh symbol ends up holding exactly the entered quantity q > 0. -/
theorem addToPortfolio_budget_quantity_semantics :
    (∀ (s n : String) (B P q : ℚ) (data : List Entry),
      0 < B → P ≠ 0 →
      addToPortfolio s n (some P) false q B data =
        some (mergeEntry s n (B / P) data) ∧
      (symbolCount s data = 0 →
        portfolioQty s (persistedPortfolio s n (some P) false q B data) =
          some (B / P))) ∧
    (∀ (s n : String) (q b : ℚ) (p1 p2 : Option ℚ) (data : List Entry),
      addToPortfolio s n p1 true q b data =
        addToPortfolio s n p2 true q b data) ∧
    (∀ (s n : String) (p : Option ℚ) (q b : ℚ) (data : List Entry),
      0 < q → symbolCount s data = 0 →
      portfolioQty s (persistedPortfolio s n p true q b data) = some q) := by
  refine ⟨?_, ?_, ?_⟩
  · intro s n B P q data hB hP
    have heq := addToPortfolio_budget_pos_eq s n P B q data hB hP
    refine ⟨heq, fun h0 => ?_⟩
    unfold persistedPortfolio
    rw [heq, Option.getD_some, mergeEntry_qty_self,
      (symbolCount_zero_iff s data).mp h0]
    simp
  · intro s n q b p1 p2 data
    rfl
  · intro s n p q b data hq h0
    unfold persistedPortfolio
    rw [addToPortfolio_qty_pos_eq s n p q b data hq, Option.getD_some,
      mergeEntry_qty_self, (symbolCount_zero_iff s data).mp h0]
    simp

/-- Witness for C3: budget 100 at price 8 stores quantity 100 / 8 for a
fresh BTC entry. -/
theorem addToPortfolio_budget_quantity_semantics_witness :
    (addToPortfolio "BTC" "Bitcoin" (some 8) false 0 100 [] =
      some (mergeEntry "BTC" "Bitcoin" (100 / 8) [])) ∧
    portfolioQty "BTC"
      (persistedPortfolio "BTC" "Bitcoin" (some 8) false 0 100 []) =
      some (100 / 8) :=
  ⟨(addToPortfolio_budget_quantity_semantics.1 "BTC" "Bitcoin" 100 8 0 []
      (by norm_num) (by norm_num)).1,
   (addToPortfolio_budget_quantity_semantics.1 "BTC" "Bitcoin" 100 8 0 []
      (by norm_num) (by norm_num)).2 rfl⟩

/-- C9: frame property of `addToPortfolio` — every successful add leaves
the sublist of entries whose symbol differs from the added one exactly
as it was (same entries, same fields, same relative order); only the
entry of the added symbol is created or has its quantity changed. -/
theorem addToPortfolio_frame (s n : String) (p : Option ℚ) (mq : Bool)
    (q b : ℚ) (data out : List Entry)
    (h : addToPortfolio s n p mq q b data = some out) :
    out.filter (fun e => e.symbol != s) =
      data.filter (fun e => e.symbol != s) := by
  obtain ⟨fq, rfl⟩ := addToPortfolio_eq_some h
  exact mergeEntry_filter_ne s n fq data

/-- Witness for C9: adding BTC on a list holding an ETH entry leaves
the non-BTC entries untouched. -/
theorem addToPortfolio_frame_witness :
    ([⟨"ETH", "Ethereum", 1⟩, ⟨"BTC", "Bitcoin", 2⟩] : List Entry).filter
        (fun e => e.symbol != "BTC") =
      ([⟨"ETH", "Ethereum", 1⟩] : List Entry).filter
        (fun e => e.symbol != "BTC") :=
  addToPortfolio_frame "BTC" "Bitcoin" none true 2 0 [⟨"ETH", "Ethereum", 1⟩]
    [⟨"ETH", "Ethereum", 1⟩, ⟨"BTC", "Bitcoin", 2⟩]
    ((addToPortfolio_qty_pos_eq "BTC" "Bitcoin" none 2 0 [⟨"ETH", "Ethereum", 1⟩]
      (by norm_num)).trans rfl)

/-- C10: the division `budget / currentPrice` is guarded — every
successful budget-mode call has a positive budget and a truthy (hence
nonzero) current price, and the stored quantity is the division by that
nonzero price, so division by zero never occurs. -/
theorem addToPortfolio_division_guarded (s n : String) (p : Option ℚ)
    (q b : ℚ) (data out : List Entry)
    (h : addToPortfolio s n p false q b data = some out) :
    0 < b ∧ p.getD 0 ≠ 0 ∧ out = mergeEntry s n (b / p.getD 0) data :=
  addToPortfolio_budget_some h

/-- Witness for C10: a successful budget-mode add with budget 100 and
price 8 has a nonzero divisor and stores 100 / 8. -/
theorem addToPortfolio_division_guarded_witness :
    0 < (100 : ℚ) ∧ (some (8 : ℚ)).getD 0 ≠ 0 ∧
    ([⟨"BTC", "Bitcoin", 100 / 8⟩] : List Entry) =
      mergeEntry "BTC" "Bitcoin" ((100 : ℚ) / (some (8 : ℚ)).getD 0) [] :=
  addToPortfolio_division_guarded "BTC" "Bitcoin" (some 8) 0 100 []
    [⟨"BTC", "Bitcoin", 100 / 8⟩]
    ((addToPortfolio_budget_pos_eq "BTC" "Bitcoin" 8 100 0 [] (by norm_num)
      (by norm_num)).trans rfl)

/-- C4: the combined chart label axis built by `openCoinModal` has
length exactly (number of historical points) + 365: it starts with the
historical labels, and the label at position (history length + i) is the
last historical date (or today when the history is empty) plus i + 1
days, so the 365 generated labels are consecutive daily dates. -/
theorem labelsFull_hist_plus_365 (labelsHist : List Nat) (today : Nat) :
    (labelsFull labelsHist today).length = labelsHist.length + 365 ∧
    (labelsFull labelsHist today).take labelsHist.length = labelsHist ∧
    ∀ i, i < 365 →
      (labelsFull labelsHist today).getD (labelsHist.length + i) 0 =
        labelsHist.getLast?.getD today + (i + 1) := by
  refine ⟨?_, ?_, ?_⟩
  · simp [labelsFull, futureLabels]
  · simp [labelsFull]
  · intro i hi
    rw [labelsFull, List.getD_append_right _ _ _ _ (by omega)]
    simp only [Nat.add_sub_cancel_left, futureLabels]
    rw [List.getD_eq_getElem?_getD, List.getElem?_map, List.getElem?_range hi]
    rfl

/-- Witness for C4: a one-point history gives a 366-label axis whose
first generated label is the day after the historical date. -/
theorem labelsFull_hist_plus_365_witness :
    (labelsFull [100] 0).length = 1 + 365 ∧
    (labelsFull [100] 0).take 1 = [100] ∧
    (labelsFull [100] 0).getD (1 + 0) 0 =
      ([100] : List Nat).getLast?.getD 0 + (0 + 1) :=
  ⟨(labelsFull_hist_plus_365 [100] 0).1,
   (labelsFull_hist_plus_365 [100] 0).2.1,
   ((labelsFull_hist_plus_365 [100] 0).2.2 0 (by norm_num) : _)⟩

/-- C5: `renderGrid` produces exactly one card per catalog entry, with
the catalog's ids and symbols in order, in both the success branch and
the failure branch; in the failure branch every card carries the
placeholder dash price, so a rejected price fetch never empties the
grid. -/
theorem renderGrid_one_card_per_coin :
    (∀ (coins : List Coin) (fetched : Option (String → Option ℚ)),
      (renderGridOn coins fetched).length = coins.length ∧
      (renderGridOn coins fetched).map Card.id = coins.map Coin.id ∧
      (renderGridOn coins fetched).map Card.symbol = coins.map Coin.symbol) ∧
    (∀ fetched, (renderGrid fetched).length = COINS.length) ∧
    (renderGrid none).all (fun card => card.priceText == "—") = true := by
  refine ⟨?_, ?_, ?_⟩
  · intro coins fetched
    cases fetched <;>
      simp [renderGridOn, coinCardTemplate, Function.comp]
  · intro fetched
    cases fetched <;> simp [renderGrid, renderGridOn]
  · decide

/-- C6 counterexample: the claim says every chart render destroys the
previously created chart instance before constructing a new one, but the
legacy `renderChart` of charts.js never calls destroy: two successive
renders on a fresh canvas leave two live chart instances attached, not
one. -/
theorem renderChart_accumulates_instances :
    (renderChart (renderChart ⟨[], none, 0⟩)).live = [0, 1] ∧
    (renderChart (renderChart ⟨[], none, 0⟩)).live.length = 2 :=
  ⟨rfl, rfl⟩

/-- C6 amended: in `openCoinModal` of static/js/main.js the previous
chart instance is destroyed before the new one is constructed, so from
any state satisfying the single-instance invariant a modal open
preserves it and leaves exactly one live instance — in particular
opening coin A's modal and then coin B's leaves exactly one; the legacy
`renderChart` of charts.js does not destroy and accumulates instances. -/
theorem openCoinModalChart_single_instance :
    (∀ st, chartInv st →
      chartInv (openCoinModalChart st) ∧
      (openCoinModalChart st).live.length = 1) ∧
    (openCoinModalChart (openCoinModalChart ⟨[], none, 0⟩)).live.length = 1 := by
  constructor
  · intro st h
    obtain ⟨live, chart, next⟩ := st
    cases chart with
    | none =>
      simp only [chartInv, Option.elim] at h
      subst h
      exact ⟨rfl, rfl⟩
    | some c =>
      simp only [chartInv, Option.elim] at h
      subst h
      constructor
      · simp [openCoinModalChart, chartInv, List.erase_cons_head]
      · simp [openCoinModalChart, List.erase_cons_head]
  · rfl

/-- Witness for C6 (amended): a single modal open from a fresh canvas
satisfies the invariant and leaves one live instance. -/
theorem openCoinModalChart_single_instance_witness :
    chartInv (openCoinModalChart ⟨[], none, 0⟩) ∧
    (openCoinModalChart ⟨[], none, 0⟩).live.length = 1 :=
  openCoinModalChart_single_instance.1 ⟨[], none, 0⟩ rfl

/-- C7 counterexample: the claim says a present field always renders its
INR-formatted value, but a present `pred_1y` equal to 0 is falsy in
JavaScript and renders the placeholder dash, not `formatINR 0 = "₹0"`. -/
theorem modalPredTexts_present_zero_dash :
    (modalPredTexts ⟨some 5000000, some 5200000, some 1, some 0⟩).2.2.2 = "—" ∧
    formatINR 0 = "₹0" ∧
    (modalPredTexts ⟨some 5000000, some 5200000, some 1, some 0⟩).2.2.2 ≠
      formatINR 0 := by
  have h1 :
      (modalPredTexts ⟨some 5000000, some 5200000, some 1, some 0⟩).2.2.2
        = "—" := by
    norm_num [modalPredTexts, renderPredField, truthy]
  refine ⟨h1, formatINR_zero, ?_⟩
  rw [h1, formatINR_zero]
  decide

/-- C7 amended: each modal field renders the INR-formatted value exactly
when the field is present with a truthy (nonzero) value, and renders the
placeholder dash when the field is absent or present with value 0; in
particular the example response with current_price 5000000 and pred_3m
5200000 renders "₹50,00,000", "₹52,00,000" and dashes for the two absent
fields. -/
theorem modalPredTexts_truthy_semantics :
    (∀ v : ℚ, v ≠ 0 → renderPredField (some v) = formatINR v) ∧
    renderPredField none = "—" ∧
    renderPredField (some 0) = "—" ∧
    modalPredTexts ⟨some 5000000, some 5200000, none, none⟩ =
      ("₹50,00,000", "₹52,00,000", "—", "—") := by
  refine ⟨?_, rfl, ?_, ?_⟩
  · intro v hv
    simp [renderPredField, truthy, hv]
  · norm_num [renderPredField, truthy]
  · norm_num [modalPredTexts, renderPredField, truthy,
      formatINR_5000000, formatINR_5200000]

/-- Witness for C7 (amended): the nonzero present value 5200000 renders
its formatted INR string. -/
theorem modalPredTexts_truthy_semantics_witness :
    renderPredField (some 5200000) = formatINR 5200000 :=
  modalPredTexts_truthy_semantics.1 5200000 (by norm_num)

/-- C8 counterexample: the claim says every theme toggle path writes the
new theme to storage under "theme" and updates the data-theme attribute,
but the legacy click handler of frontend/js/main.js only flips the body
class: from a persisted light theme it changes the displayed theme
(bodyDark becomes true) while storage and data-theme keep "light". -/
theorem legacyThemeToggle_no_persistence :
    (legacyThemeToggleClick ⟨some "light", some "light", false, false⟩).bodyDark
      = true ∧
    (legacyThemeToggleClick
      ⟨some "light", some "light", false, false⟩).storageTheme = some "light" ∧
    (legacyThemeToggleClick
      ⟨some "light", some "light", false, false⟩).dataTheme = some "light" :=
  ⟨rfl, rfl, rfl⟩

/-- C8 amended: the static/js/main.js toggle path writes the new
two-valued theme ("light" or "dark") to storage under "theme" and sets
the root data-theme attribute, and `initTheme` re-applies the saved
theme (default "light") on every page load; the legacy
frontend/js/main.js click handler only toggles a body class and neither
persists the theme nor touches data-theme. -/
theorem themeToggle_persists_and_reapplies :
    (∀ (st : ThemeState) (checked : Bool),
      (themeToggleChange checked st).storageTheme =
        some (if checked then "dark" else "light") ∧
      (themeToggleChange checked st).dataTheme =
        some (if checked then "dark" else "light") ∧
      ((if checked then "dark" else "light") = "dark" ∨
        (if checked then "dark" else "light") = "light")) ∧
    (∀ st : ThemeState,
      (initTheme st).dataTheme = some (st.storageTheme.getD "light") ∧
      (initTheme st).storageTheme = some (st.storageTheme.getD "light")) ∧
    (∀ st : ThemeState,
      (legacyThemeToggleClick st).storageTheme = st.storageTheme ∧
      (legacyThemeToggleClick st).dataTheme = st.dataTheme) := by
  refine ⟨?_, ?_, ?_⟩
  · intro st checked
    cases checked
    · exact ⟨rfl, rfl, Or.inr rfl⟩
    · exact ⟨rfl, rfl, Or.inl rfl⟩
  · intro st
    exact ⟨rfl, rfl⟩
  · intro st
    exact ⟨rfl, rfl⟩
